import Mathlib

/-!
Verification of the eframe winit integration layer
(`crates/eframe/src/native/winit_integration.rs`).

The source file is embedded shallowly: Rust enums become inductive types,
pure functions become Lean functions, the compile-time `cfg!` platform
classification becomes an explicit `TargetOs` parameter, and the two
`todo!()` panic branches of the accesskit conversion are modelled as
`Except.error`. Collaborators that live outside this file
(`load_egui_memory`, `theme_from_winit_theme`,
`short_generic_event_description`, and the `WinitApp` trait-method
implementations) are modelled from the specification, as documented on
each such definition.
-/

namespace WinitIntegration

/-- Target operating systems distinguished by the `cfg!(target_os = ...)`
classification in `create_egui_context`. -/
inductive TargetOs
  | freebsd
  | linux
  | macos
  | openbsd
  | windows
  | android
  | ios
  | wasm
  | other
  deriving DecidableEq, Repr

/-- Embedding of the compile-time constant
`IS_DESKTOP = cfg!(any(target_os = "freebsd", "linux", "macos", "openbsd",
"windows"))` from `create_egui_context`, made explicit over the target OS. -/
def IS_DESKTOP (os : TargetOs) : Bool :=
  match os with
  | .freebsd => true
  | .linux => true
  | .macos => true
  | .openbsd => true
  | .windows => true
  | _ => false

/-- The five desktop target operating systems listed in the `cfg!` of
`IS_DESKTOP`, in source order. -/
def desktopTargets : List TargetOs :=
  [.freebsd, .linux, .macos, .openbsd, .windows]

/-- Persisted egui memory (layout, scroll positions, ...). Its format is
opaque to the integration layer; it is modelled as an opaque key-value
payload. -/
structure Memory where
  data : List (String × String)
  deriving DecidableEq, Repr

instance : Inhabited Memory := ⟨⟨[]⟩⟩

/-- A storage backend handed to `create_egui_context`. It either holds a
valid persisted memory blob or nothing (missing or corrupt data). -/
structure Storage where
  persisted_memory : Option Memory
  deriving DecidableEq, Repr

/-- Modelled from the spec: `crate::native::epi_integration::load_egui_memory`
is not under src/. Per the spec it loads previously persisted memory when
storage is present and valid, and yields nothing on missing or corrupt
data. -/
def load_egui_memory (storage : Option Storage) : Option Memory :=
  storage.bind (fun s => s.persisted_memory)

/-- The observable state of an `egui::Context` that `create_egui_context`
touches: the viewport-embedding policy and the restored memory. -/
structure Context where
  embed_viewports : Bool
  memory : Memory
  deriving DecidableEq, Repr

/-- The default egui context: viewports are native windows, memory is
empty. -/
def Context.default : Context :=
  { embed_viewports := false, memory := (Inhabited.default : Memory) }

/-- Embedding of `egui_ctx.set_embed_viewports(b)`. -/
def Context.set_embed_viewports (c : Context) (b : Bool) : Context :=
  { c with embed_viewports := b }

/-- Embedding of `egui_ctx.memory_mut(|mem| *mem = memory)`. -/
def Context.set_memory (c : Context) (m : Memory) : Context :=
  { c with memory := m }

/-- Embedding of `create_egui_context`: start from the default context, set
the embedding policy to the negation of `IS_DESKTOP`, then overwrite the
memory with the loaded memory or its default. -/
def create_egui_context (os : TargetOs) (storage : Option Storage) : Context :=
  let egui_ctx := Context.default
  let egui_ctx := egui_ctx.set_embed_viewports (!IS_DESKTOP os)
  let memory := (load_egui_memory storage).getD (default : Memory)
  egui_ctx.set_memory memory

/-- Identifier of a logical viewport (`egui::ViewportId`). -/
structure ViewportId where
  id : Nat
  deriving DecidableEq, Repr

/-- Identifier of a native window (`winit::window::WindowId`). -/
structure WindowId where
  id : Nat
  deriving DecidableEq, Repr

/-- Monotone timestamps (`std::time::Instant`), modelled as naturals. -/
abbrev Instant := Nat

/-- An accesskit action request; its payload is opaque to this layer and
modelled as an opaque numeric pair. -/
structure ActionRequest where
  action : Nat
  target : Nat
  deriving DecidableEq, Repr

/-- The custom event `eframe` posts into the winit event loop
(`UserEvent`), with the accesskit feature compiled in. -/
inductive UserEvent
  | RequestRepaint (viewport_id : ViewportId) (when : Instant) (frame_nr : Nat)
  | AccessKitActionRequest (request : ActionRequest) (window_id : WindowId)
  deriving DecidableEq, Repr

/-- Whether a `UserEvent` is the `AccessKitActionRequest` variant. -/
def UserEvent.isAccessKitActionRequest : UserEvent → Bool
  | .AccessKitActionRequest _ _ => true
  | _ => false

/-- The subtypes of `accesskit_winit::WindowEvent`. -/
inductive AccessKitWindowEvent
  | InitialTreeRequested
  | AccessibilityDeactivated
  | ActionRequested (request : ActionRequest)
  deriving DecidableEq, Repr

/-- A host accessibility event (`accesskit_winit::Event`). -/
structure AccessKitEvent where
  window_id : WindowId
  window_event : AccessKitWindowEvent
  deriving DecidableEq, Repr

/-- Embedding of `impl From<accesskit_winit::Event> for UserEvent`. The two
`todo!()` branches abort the process at runtime; the panic is modelled as
`Except.error` carrying the panic message. -/
def userEventFrom (event : AccessKitEvent) : Except String UserEvent :=
  match event.window_event with
  | .InitialTreeRequested => .error "not yet implemented"
  | .AccessibilityDeactivated => .error "not yet implemented"
  | .ActionRequested request =>
      .ok (.AccessKitActionRequest request event.window_id)

/-- Whether the conversion from a host accessibility event reaches one of
the `todo!()` panic branches. -/
def conversionPanics (event : AccessKitEvent) : Bool :=
  match userEventFrom event with
  | .error _ => true
  | .ok _ => false

/-- The scheduling outcome returned to the owning event loop
(`EventResult`). -/
inductive EventResult
  | Wait
  | RepaintNow (window_id : WindowId)
  | RepaintNext (window_id : WindowId)
  | RepaintAt (window_id : WindowId) (when : Instant)
  | Exit
  deriving DecidableEq, Repr

/-- Modelled from the spec: the `WinitApp::on_event` implementations are
not under src/ (only the trait declaration is). Per the spec, `on_event`
handles a posted `RequestRepaint` by comparing the request's `frame_nr`
against the viewport's live frame counter: a stale request (the live
counter has already advanced past the requested one) must not force an
immediate redraw and yields at most a future wake timer or `Wait`, while a
fresh request schedules `RepaintAt` for the request's instant, or `Wait`
when the viewport has no window. -/
def on_request_repaint (live_frame_nr : Nat) (window_id : Option WindowId)
    (when : Instant) (frame_nr : Nat) : EventResult :=
  if frame_nr < live_frame_nr then
    EventResult.Wait
  else
    match window_id with
    | some w => EventResult.RepaintAt w when
    | none => EventResult.Wait

/-- The adapter state touched by `save_and_destroy`: the live GUI memory,
what has been persisted, the owned window handles, and whether the adapter
has been destroyed. -/
structure AdapterState where
  memory : Memory
  persisted : Option Memory
  windows : List WindowId
  destroyed : Bool
  deriving DecidableEq, Repr

/-- Modelled from the spec: the `WinitApp::save_and_destroy`
implementations are not under src/ (only the trait declaration is). Per
the spec it persists the current GUI memory via the storage collaborator
and then releases all owned window handles; it is required to be
idempotent, so a destroyed adapter is left untouched. -/
def save_and_destroy (s : AdapterState) : AdapterState :=
  if s.destroyed then
    s
  else
    { s with persisted := some s.memory, windows := [], destroyed := true }

/-- The winit theme reported by a window (`winit::window::Theme`). -/
inductive WinitTheme
  | Light
  | Dark
  deriving DecidableEq, Repr

/-- The application theme (`crate::Theme`). -/
inductive Theme
  | Dark
  | Light
  deriving DecidableEq, Repr

/-- The slice of `crate::NativeOptions` read by `system_theme`. -/
structure NativeOptions where
  follow_system_theme : Bool
  deriving DecidableEq, Repr

/-- The slice of a native window read by `system_theme`: `window.theme()`
returns the OS theme or nothing when it cannot be detected. -/
structure Window where
  theme : Option WinitTheme
  deriving DecidableEq, Repr

/-- Modelled from the spec: `epi_integration::theme_from_winit_theme` is
not under src/. Per the spec it maps the window binding's theme to the
application's theme enum. -/
def theme_from_winit_theme : WinitTheme → Theme
  | .Light => .Light
  | .Dark => .Dark

/-- Embedding of `system_theme`: gate on `follow_system_theme`, then map
the window's reported theme. -/
def system_theme (window : Window) (options : NativeOptions) : Option Theme :=
  if options.follow_system_theme then
    window.theme.map theme_from_winit_theme
  else
    none

/-- The `winit::event::Event<UserEvent>` variants, with non-user variants
kept as value-free (or id-carrying) constructors: `short_event_description`
only dispatches on the variant. -/
inductive Event
  | NewEvents
  | WindowEvent (window_id : WindowId)
  | DeviceEvent
  | UserEvent (user_event : UserEvent)
  | Suspended
  | Resumed
  | AboutToWait
  | LoopExiting
  | MemoryWarning
  deriving DecidableEq, Repr

/-- Modelled from the spec: `egui_winit::short_generic_event_description`
is not under src/. Per the spec the description is total and returns a
static literal label for each native event variant. -/
def short_generic_event_description (event : Event) : String :=
  match event with
  | .NewEvents => "Event::NewEvents"
  | .WindowEvent _ => "Event::WindowEvent"
  | .DeviceEvent => "Event::DeviceEvent"
  | .UserEvent _ => "Event::UserEvent"
  | .Suspended => "Event::Suspended"
  | .Resumed => "Event::Resumed"
  | .AboutToWait => "Event::AboutToWait"
  | .LoopExiting => "Event::LoopExiting"
  | .MemoryWarning => "Event::MemoryWarning"

/-- Embedding of `short_event_description`: user events get their own
labels, everything else is delegated to the generic description. -/
def short_event_description (event : Event) : String :=
  match event with
  | .UserEvent user_event =>
    match user_event with
    | .RequestRepaint _ _ _ => "UserEvent::RequestRepaint"
    | .AccessKitActionRequest _ _ => "UserEvent::AccessKitActionRequest"
  | _ => short_generic_event_description event

/-- The fixed set of static labels `short_event_description` can return. -/
def eventLabels : List String :=
  ["UserEvent::RequestRepaint", "UserEvent::AccessKitActionRequest",
   "Event::NewEvents", "Event::WindowEvent", "Event::DeviceEvent",
   "Event::Suspended", "Event::Resumed", "Event::AboutToWait",
   "Event::LoopExiting", "Event::MemoryWarning"]

/-- C1: a delivered `RequestRepaint` carrying `frame_nr` strictly below the
viewport's live frame counter is stale: `on_event` yields neither
`RepaintNow` nor `RepaintNext` for it, only `Wait` (at most a future wake,
which the modelled handler never emits for a stale request). -/
theorem stale_request_repaint_never_immediate (live : Nat)
    (wid : Option WindowId) (t : Instant) (fn : Nat) (w : WindowId)
    (h : fn < live) :
    on_request_repaint live wid t fn ≠ EventResult.RepaintNow w ∧
    on_request_repaint live wid t fn ≠ EventResult.RepaintNext w ∧
    on_request_repaint live wid t fn = EventResult.Wait := by
  have hres : on_request_repaint live wid t fn = EventResult.Wait := by
    simp [on_request_repaint, h]
  exact ⟨by simp [hres], by simp [hres], hres⟩

/-- Witness for C1 at live counter 5, requested frame 3. -/
theorem stale_request_repaint_never_immediate_witness :
    on_request_repaint 5 (some ⟨1⟩) 10 3 ≠ EventResult.RepaintNow ⟨1⟩ ∧
    on_request_repaint 5 (some ⟨1⟩) 10 3 ≠ EventResult.RepaintNext ⟨1⟩ ∧
    on_request_repaint 5 (some ⟨1⟩) 10 3 = EventResult.Wait :=
  stale_request_repaint_never_immediate 5 (some ⟨1⟩) 10 3 ⟨1⟩ (by decide)

/-- C2: `system_theme` returns `none` whenever `follow_system_theme` is
false, regardless of the window's reported theme; when it is true the
window's theme is mapped through `theme_from_winit_theme`, and an
undetectable OS theme yields `none` rather than an error. -/
theorem system_theme_follow_gate (window : Window) (options : NativeOptions) :
    (options.follow_system_theme = false → system_theme window options = none) ∧
    (options.follow_system_theme = true →
      system_theme window options = window.theme.map theme_from_winit_theme) ∧
    (options.follow_system_theme = true → window.theme = none →
      system_theme window options = none) := by
  refine ⟨fun h => ?_, fun h => ?_, fun h h2 => ?_⟩ <;>
    simp [system_theme, h]
  simp [h2]

/-- Witness for C2: with `follow_system_theme := false` and a Dark OS
theme, `system_theme` still returns `none`. -/
theorem system_theme_follow_gate_witness :
    system_theme ⟨some WinitTheme.Dark⟩ ⟨false⟩ = none :=
  (system_theme_follow_gate ⟨some WinitTheme.Dark⟩ ⟨false⟩).1 rfl

/-- C3: `create_egui_context` never fails the caller: when the storage
yields no valid persisted memory the returned context's memory is the
default (empty) memory, and when valid persisted memory exists it is
restored into the context. -/
theorem create_egui_context_memory_restore (os : TargetOs)
    (storage : Option Storage) (m : Memory) :
    (load_egui_memory storage = none →
      (create_egui_context os storage).memory = (Inhabited.default : Memory)) ∧
    (load_egui_memory storage = some m →
      (create_egui_context os storage).memory = m) := by
  refine ⟨fun h => ?_, fun h => ?_⟩ <;>
    simp [create_egui_context, Context.set_memory, Context.set_embed_viewports,
      Context.default, h]

/-- Witness for C3: a storage holding a persisted memory blob has that
blob restored, and an absent storage yields the default memory. -/
theorem create_egui_context_memory_restore_witness :
    (create_egui_context TargetOs.linux
        (some ⟨some ⟨[("k", "v")]⟩⟩)).memory = ⟨[("k", "v")]⟩ ∧
    (create_egui_context TargetOs.linux none).memory =
      (Inhabited.default : Memory) :=
  ⟨(create_egui_context_memory_restore TargetOs.linux
      (some ⟨some ⟨[("k", "v")]⟩⟩) ⟨[("k", "v")]⟩).2 rfl,
   (create_egui_context_memory_restore TargetOs.linux none
      ⟨[("k", "v")]⟩).1 rfl⟩

/-- C4: for every storage argument, `create_egui_context` embeds all
viewports exactly on non-desktop platforms: the embedding policy equals
the negation of `IS_DESKTOP`. -/
theorem create_egui_context_embed_policy (os : TargetOs)
    (storage : Option Storage) :
    (create_egui_context os storage).embed_viewports = !IS_DESKTOP os ∧
    ((create_egui_context os storage).embed_viewports = true ↔
      IS_DESKTOP os = false) ∧
    ((create_egui_context os storage).embed_viewports = false ↔
      IS_DESKTOP os = true) := by
  have h : (create_egui_context os storage).embed_viewports = !IS_DESKTOP os := by
    simp [create_egui_context, Context.set_memory, Context.set_embed_viewports,
      Context.default]
  refine ⟨h, ?_, ?_⟩ <;> rw [h] <;> cases IS_DESKTOP os <;> simp

/-- Witness for C4: on linux (a desktop platform) viewports are not
embedded. -/
theorem create_egui_context_embed_policy_witness :
    (create_egui_context TargetOs.linux none).embed_viewports = false :=
  (create_egui_context_embed_policy TargetOs.linux none).2.2.mpr rfl

/-- C5: converting a host accessibility event whose subtype is an action
request succeeds and produces the `AccessKitActionRequest` variant of
`UserEvent`. -/
theorem from_action_requested_variant (event : AccessKitEvent)
    (request : ActionRequest)
    (h : event.window_event = AccessKitWindowEvent.ActionRequested request) :
    (userEventFrom event).map UserEvent.isAccessKitActionRequest =
      Except.ok true := by
  simp [userEventFrom, h, UserEvent.isAccessKitActionRequest, Except.map]

/-- Witness for C5 at a concrete action request. -/
theorem from_action_requested_variant_witness :
    (userEventFrom ⟨⟨7⟩, AccessKitWindowEvent.ActionRequested ⟨1, 2⟩⟩).map
      UserEvent.isAccessKitActionRequest = Except.ok true :=
  from_action_requested_variant ⟨⟨7⟩, AccessKitWindowEvent.ActionRequested ⟨1, 2⟩⟩
    ⟨1, 2⟩ rfl

/-- C6: converting a host accessibility event whose subtype is
`InitialTreeRequested` or `AccessibilityDeactivated` reaches the
unimplemented-branch panic (modelled as `Except.error`): these subtypes
have no non-crashing behavior. -/
theorem from_unimplemented_subtypes_panic (event : AccessKitEvent)
    (h : event.window_event = AccessKitWindowEvent.InitialTreeRequested ∨
      event.window_event = AccessKitWindowEvent.AccessibilityDeactivated) :
    conversionPanics event = true := by
  rcases h with h | h <;> simp [conversionPanics, userEventFrom, h]

/-- Witness for C6 at a concrete `InitialTreeRequested` event. -/
theorem from_unimplemented_subtypes_panic_witness :
    conversionPanics ⟨⟨3⟩, AccessKitWindowEvent.InitialTreeRequested⟩ = true :=
  from_unimplemented_subtypes_panic
    ⟨⟨3⟩, AccessKitWindowEvent.InitialTreeRequested⟩ (Or.inl rfl)

/-- C7: `short_event_description` is total and always returns a label from
the fixed set of static string literals; in particular `RequestRepaint`
user events map to "UserEvent::RequestRepaint" and accesskit action
requests to "UserEvent::AccessKitActionRequest". -/
theorem short_event_description_total (event : Event) (v : ViewportId)
    (t : Instant) (n : Nat) (r : ActionRequest) (w : WindowId) :
    short_event_description event ∈ eventLabels ∧
    short_event_description (Event.UserEvent (UserEvent.RequestRepaint v t n)) =
      "UserEvent::RequestRepaint" ∧
    short_event_description
        (Event.UserEvent (UserEvent.AccessKitActionRequest r w)) =
      "UserEvent::AccessKitActionRequest" := by
  refine ⟨?_, rfl, rfl⟩
  cases event with
  | UserEvent ue =>
      cases ue <;>
        simp [short_event_description, eventLabels]
  | _ =>
      simp [short_event_description, short_generic_event_description,
        eventLabels]

/-- C8: `save_and_destroy` is idempotent: a second call in succession is a
no-op with respect to the first, in particular it does not change what was
persisted and does not release window handles twice. -/
theorem save_and_destroy_idempotent (s : AdapterState) :
    save_and_destroy (save_and_destroy s) = save_and_destroy s ∧
    (save_and_destroy (save_and_destroy s)).persisted =
      (save_and_destroy s).persisted ∧
    (save_and_destroy s).destroyed = true := by
  cases hd : s.destroyed <;>
    simp [save_and_destroy, hd]

/-- C9: the accessibility-bridge conversion is field-preserving: for an
`ActionRequested` host event, the produced `AccessKitActionRequest`
carries exactly the host event's request and window id, unchanged. -/
theorem from_action_requested_preserves_fields (event : AccessKitEvent)
    (request : ActionRequest)
    (h : event.window_event = AccessKitWindowEvent.ActionRequested request) :
    userEventFrom event =
      Except.ok (UserEvent.AccessKitActionRequest request event.window_id) := by
  simp [userEventFrom, h]

/-- Witness for C9 at a concrete action request and window id. -/
theorem from_action_requested_preserves_fields_witness :
    userEventFrom ⟨⟨9⟩, AccessKitWindowEvent.ActionRequested ⟨4, 5⟩⟩ =
      Except.ok (UserEvent.AccessKitActionRequest ⟨4, 5⟩ ⟨9⟩) :=
  from_action_requested_preserves_fields
    ⟨⟨9⟩, AccessKitWindowEvent.ActionRequested ⟨4, 5⟩⟩ ⟨4, 5⟩ rfl

/-- C10: the platform classification used by `create_egui_context` is the
fixed set {freebsd, linux, macos, openbsd, windows}, and viewports are
embedded exactly when the target OS is not in this set. -/
theorem is_desktop_classification (os : TargetOs) (storage : Option Storage) :
    (IS_DESKTOP os = true ↔ os ∈ desktopTargets) ∧
    ((create_egui_context os storage).embed_viewports = true ↔
      os ∉ desktopTargets) := by
  cases os <;>
    simp [IS_DESKTOP, desktopTargets, create_egui_context,
      Context.set_memory, Context.set_embed_viewports, Context.default]

/-- Witness for C10: android is not a desktop target, so viewports are
embedded there. -/
theorem is_desktop_classification_witness :
    (create_egui_context TargetOs.android none).embed_viewports = true :=
  (is_desktop_classification TargetOs.android none).2.mpr (by decide)

end WinitIntegration
